import Mathlib

/-
Verification development for the SteamVR-Bridge repository.

The repository polls VR controller poses and input states from an OpenXR
runtime each frame and forwards them over UDP. This file gives a shallow
embedding of the repository code:

  * src/steamvr_bridge/vive_controller.py  (ViveController)
  * src/steamvr_bridge/steamvr_bridge.py   (SteamVrBridge.update)
  * src/steamvr_bridge/windows_performance_counter.py
  * src/scripts/run_vr_bridge.py           (script revision of the bridge,
    the numpy/scipy pose-matrix construction and the UDP publishing loop)

Floating-point values carry no arithmetic in the embedded fragments except
the quaternion-to-matrix conversion, which is an exact rational formula, so
floats are modelled as rationals. External collaborator calls (the OpenXR
runtime, the UDP transport) are modelled by oracle inputs, and the calls a
tick issues are recorded in an explicit trace.
-/

/-- Kinds of Python exceptions that the embedded code can raise or observe. -/
inductive PyErr where
  | typeError
  | attributeError
  | keyError
  | osError
  | eventUnavailable
deriving DecidableEq, Repr

/-- Embeds xr.Vector3f; xr.Vector3f() defaults to the origin. -/
structure Vector3f where
  x : ℚ := 0
  y : ℚ := 0
  z : ℚ := 0
deriving DecidableEq, Repr

/-- Embeds xr.Quaternionf with the pyopenxr field order (x, y, z, w);
xr.Quaternionf() defaults to the identity quaternion (w = 1). -/
structure Quaternionf where
  x : ℚ := 0
  y : ℚ := 0
  z : ℚ := 0
  w : ℚ := 1
deriving DecidableEq, Repr

/-- Embeds xr.Posef: a position together with an orientation. -/
structure Posef where
  position : Vector3f
  orientation : Quaternionf
deriving DecidableEq, Repr

/-- The xr.SPACE_LOCATION_POSITION_VALID_BIT flag bit (value 2 in OpenXR). -/
def SPACE_LOCATION_POSITION_VALID_BIT : Nat := 2

/-- Embeds xr.SpaceLocation: the result of an xr.locate_space call, a flag
bitmask together with a pose. -/
structure SpaceLocation where
  location_flags : Nat
  pose : Posef
deriving DecidableEq, Repr

/-- Embeds xr.ActionStateBoolean as returned by xr.get_action_state_boolean.
The repository reads only the current_state field of the struct. -/
structure ActionStateBoolean where
  current_state : Bool
deriving DecidableEq, Repr

/-- Embeds xr.ActionStateFloat as returned by xr.get_action_state_float.
The repository reads only the current_state field of the struct. -/
structure ActionStateFloat where
  current_state : ℚ
deriving DecidableEq, Repr

/-- A Python attribute slot that holds either a plain bool (as assigned in
ViveController.__init__) or an xr.ActionStateBoolean struct (as assigned in
ViveController.update). Reading .current_state from the plain bool raises
AttributeError in Python. -/
inductive BoolSlot where
  | pyBool (b : Bool)
  | state (s : ActionStateBoolean)
deriving DecidableEq, Repr

/-- A Python attribute slot that holds either a plain float (as assigned in
ViveController.__init__) or an xr.ActionStateFloat struct (as assigned in
ViveController.update). Reading .current_state from the plain float raises
AttributeError in Python. -/
inductive FloatSlot where
  | pyFloat (q : ℚ)
  | state (s : ActionStateFloat)
deriving DecidableEq, Repr

/-- The mutable state of a ViveController instance: the fields assigned in
ViveController.__init__ and overwritten by ViveController.update. The two
copies of the class (vive_controller.py and run_vr_bridge.py) have identical
state, update and accessor code. -/
structure ViveControllerState where
  pos_ : Vector3f
  orient_ : Quaternionf
  menu_button_ : BoolSlot
  trackpad_x_ : FloatSlot
  trackpad_y_ : FloatSlot
  trackpad_button_ : BoolSlot
  trigger_ : FloatSlot
  grip_button_ : BoolSlot
deriving DecidableEq, Repr

namespace ViveController

/-- The controller state established by ViveController.__init__:
self.position = xr.Vector3f(); self.orientation = xr.Quaternionf();
the button slots hold the plain Python bool False and the analog slots hold
the plain Python float 0.0. -/
def init : ViveControllerState where
  pos_ := {}
  orient_ := {}
  menu_button_ := .pyBool false
  trackpad_x_ := .pyFloat 0
  trackpad_y_ := .pyFloat 0
  trackpad_button_ := .pyBool false
  trigger_ := .pyFloat 0
  grip_button_ := .pyBool false

/-- The collaborator answers consumed by one ViveController.update call: the
xr.locate_space result for the controller action space and the six action
state queries. -/
structure Inputs where
  locate : SpaceLocation
  menu_button : ActionStateBoolean
  trackpad_x : ActionStateFloat
  trackpad_y : ActionStateFloat
  trackpad_button : ActionStateBoolean
  trigger : ActionStateFloat
  grip_button : ActionStateBoolean
deriving DecidableEq, Repr

/-- Embeds ViveController.update: the position and orientation are
overwritten only when the locate result carries the position-valid bit
(space_location.location_flags & xr.SPACE_LOCATION_POSITION_VALID_BIT),
while the six input slots are unconditionally overwritten with the structs
returned by the action state queries. -/
def update (st : ViveControllerState) (ins : Inputs) : ViveControllerState :=
  let st1 :=
    if ins.locate.location_flags &&& SPACE_LOCATION_POSITION_VALID_BIT ≠ 0 then
      { st with pos_ := ins.locate.pose.position, orient_ := ins.locate.pose.orientation }
    else
      st
  { st1 with
    menu_button_ := .state ins.menu_button
    trackpad_x_ := .state ins.trackpad_x
    trackpad_y_ := .state ins.trackpad_y
    trackpad_button_ := .state ins.trackpad_button
    trigger_ := .state ins.trigger
    grip_button_ := .state ins.grip_button }

/-- Embeds the position property: returns self.position (a plain field
read that never fails). -/
def position (st : ViveControllerState) : Vector3f := st.pos_

/-- Embeds the orientation property: returns self.orientation (a plain
field read that never fails). -/
def orientation (st : ViveControllerState) : Quaternionf := st.orient_

/-- Embeds the menu_button property: returns self.menu_button.current_state,
which raises AttributeError when the slot still holds the plain bool from
ViveController.__init__. -/
def menu_button (st : ViveControllerState) : Except PyErr Bool :=
  match st.menu_button_ with
  | .pyBool _ => .error .attributeError
  | .state s => .ok s.current_state

/-- Embeds the trackpad_x property: returns
self.trackpad_x.current_state, raising AttributeError on the plain float
stored by ViveController.__init__. -/
def trackpad_x (st : ViveControllerState) : Except PyErr ℚ :=
  match st.trackpad_x_ with
  | .pyFloat _ => .error .attributeError
  | .state s => .ok s.current_state

/-- Embeds the trackpad_y property: returns
self.trackpad_y.current_state, raising AttributeError on the plain float
stored by ViveController.__init__. -/
def trackpad_y (st : ViveControllerState) : Except PyErr ℚ :=
  match st.trackpad_y_ with
  | .pyFloat _ => .error .attributeError
  | .state s => .ok s.current_state

/-- Embeds the trackpad_button property: returns
self.trackpad_button.current_state, raising AttributeError on the plain
bool stored by ViveController.__init__. -/
def trackpad_button (st : ViveControllerState) : Except PyErr Bool :=
  match st.trackpad_button_ with
  | .pyBool _ => .error .attributeError
  | .state s => .ok s.current_state

/-- Embeds the trigger property: returns self.trigger.current_state,
raising AttributeError on the plain float stored by
ViveController.__init__. -/
def trigger (st : ViveControllerState) : Except PyErr ℚ :=
  match st.trigger_ with
  | .pyFloat _ => .error .attributeError
  | .state s => .ok s.current_state

/-- Embeds the grip_button property: returns
self.grip_button.current_state, raising AttributeError on the plain bool
stored by ViveController.__init__. -/
def grip_button (st : ViveControllerState) : Except PyErr Bool :=
  match st.grip_button_ with
  | .pyBool _ => .error .attributeError
  | .state s => .ok s.current_state

end ViveController

/-- Embeds xr.SessionState (the constructors the repository can observe). -/
inductive SessionState where
  | UNKNOWN
  | IDLE
  | READY
  | SYNCHRONIZED
  | VISIBLE
  | FOCUSED
  | STOPPING
  | LOSS_PENDING
  | EXITING
deriving DecidableEq, Repr

/-- An event returned by xr.poll_event: either a session-state-changed
event (the only structure type SteamVrBridge.update inspects) or an event
of any other structure type, which the drain loop ignores. -/
inductive XrEvent where
  | sessionStateChanged (s : SessionState)
  | otherEvent
deriving DecidableEq, Repr

/-- One call issued to the OpenXR collaborator (or to the performance
counter) during a tick. Calls that take the session handle record the
value of self.session at the moment of the call, so a call made against
the None handle left by the STOPPING branch is visible in the trace. -/
inductive XrCall where
  | pollEvent
  | beginSession (session : Option Nat)
  | destroySession (session : Option Nat)
  | waitFrame (session : Option Nat)
  | perfCounterGet
  | syncActions (session : Option Nat)
  | locateSpace (space : String)
  | getActionState (action : String) (session : Option Nat)
deriving DecidableEq, Repr

/-- The calls ViveController.update issues, in program order: one
xr.locate_space on the controller action space, then the six action state
queries, each passed the session handle the bridge held at that moment. -/
def ViveController.updateCalls (name : String) (session : Option Nat) : List XrCall :=
  [ .locateSpace (name ++ "_action_space"),
    .getActionState (name ++ "_menu_button") session,
    .getActionState (name ++ "_trackpad_x") session,
    .getActionState (name ++ "_trackpad_y") session,
    .getActionState (name ++ "_trackpad_button") session,
    .getActionState (name ++ "_trigger") session,
    .getActionState (name ++ "_grip_button") session ]

/-- The mutable state of a SteamVrBridge instance that SteamVrBridge.update
touches: the session handle (None after the STOPPING branch destroys it),
the last seen session state, the HMD snapshot and the two controllers. -/
structure BridgeState where
  session : Option Nat
  session_state : SessionState
  hmd_position : Vector3f
  hmd_orientation : Quaternionf
  left : ViveControllerState
  right : ViveControllerState
deriving DecidableEq, Repr

namespace SteamVrBridge

/-- The bridge state after SteamVrBridge.__init__ (identical in the
steamvr_bridge.py and run_vr_bridge.py revisions): a live session handle,
session_state = xr.SessionState.UNKNOWN, default HMD snapshot and two
freshly constructed controllers. -/
def init : BridgeState where
  session := some 1
  session_state := .UNKNOWN
  hmd_position := {}
  hmd_orientation := {}
  left := ViveController.init
  right := ViveController.init

/-- Embeds xr.poll_event against a queue of pending events: raises
xr.EventUnavailable exactly when the queue is empty, otherwise returns the
front event and the remaining queue. -/
def pollEvent : List XrEvent → Except PyErr (XrEvent × List XrEvent)
  | [] => .error .eventUnavailable
  | e :: rest => .ok (e, rest)

/-- Embeds the body of the try-block run for one polled event: ignore any
structure type other than EVENT_DATA_SESSION_STATE_CHANGED; otherwise store
the new session state, call xr.begin_session on READY, and on STOPPING call
xr.destroy_session on the current handle and then set self.session = None. -/
def handleEvent (st : BridgeState) (e : XrEvent) : BridgeState × List XrCall :=
  match e with
  | .otherEvent => (st, [])
  | .sessionStateChanged s =>
    let st1 := { st with session_state := s }
    if s = .READY then
      (st1, [.beginSession st1.session])
    else if s = .STOPPING then
      ({ st1 with session := none }, [.destroySession st1.session])
    else
      (st1, [])

/-- Embeds the while-True drain loop at the top of SteamVrBridge.update.
Each iteration calls xr.poll_event; a pending event is handled by
handleEvent and the loop repeats on the rest of the queue (pollEvent
(e :: rest) = .ok (e, rest)); on the empty queue pollEvent yields the
EventUnavailable signal, which the except-clause catches and turns into a
normal break, so the loop always returns a state rather than an error. -/
def drainEvents (st : BridgeState) : List XrEvent → BridgeState × List XrCall
  | [] => (st, [.pollEvent])
  | e :: rest =>
    let p := handleEvent st e
    let q := drainEvents p.1 rest
    (q.1, .pollEvent :: (p.2 ++ q.2))

/-- The collaborator answers consumed by one SteamVrBridge.update call:
the pending event queue, the xr.locate_space answer for the headset and
the per-controller answers. -/
structure Inputs where
  events : List XrEvent
  hmd_locate : SpaceLocation
  left_inputs : ViveController.Inputs
  right_inputs : ViveController.Inputs
deriving DecidableEq, Repr

/-- Embeds SteamVrBridge.update from src/steamvr_bridge/steamvr_bridge.py,
returning the new bridge state and the trace of collaborator calls issued,
in program order: drain the event queue, xr.wait_frame, the performance
counter read, xr.sync_actions, xr.locate_space for the headset (storing the
pose only under the position-valid flag), then each controller update. -/
def update (st : BridgeState) (ins : Inputs) : BridgeState × List XrCall :=
  let d := drainEvents st ins.events
  let st1 := d.1
  let st2 :=
    if ins.hmd_locate.location_flags &&& SPACE_LOCATION_POSITION_VALID_BIT ≠ 0 then
      { st1 with
        hmd_position := ins.hmd_locate.pose.position
        hmd_orientation := ins.hmd_locate.pose.orientation }
    else
      st1
  let st3 := { st2 with
    left := ViveController.update st2.left ins.left_inputs
    right := ViveController.update st2.right ins.right_inputs }
  (st3,
    d.2
      ++ [.waitFrame st1.session, .perfCounterGet, .syncActions st1.session,
          .locateSpace "view_reference_space"]
      ++ ViveController.updateCalls "left" st1.session
      ++ ViveController.updateCalls "right" st1.session)

end SteamVrBridge

/-- Embeds SteamVrBridge.update from src/scripts/run_vr_bridge.py. It is
the same routine except that the headset xr.locate_space result is computed
but not stored (the storing lines are commented out in that revision). -/
def ScriptBridge.update (st : BridgeState) (ins : SteamVrBridge.Inputs) :
    BridgeState × List XrCall :=
  let d := SteamVrBridge.drainEvents st ins.events
  let st1 := d.1
  let st2 := { st1 with
    left := ViveController.update st1.left ins.left_inputs
    right := ViveController.update st1.right ins.right_inputs }
  (st2,
    d.2
      ++ [.waitFrame st1.session, .perfCounterGet, .syncActions st1.session,
          .locateSpace "view_reference_space"]
      ++ ViveController.updateCalls "left" st1.session
      ++ ViveController.updateCalls "right" st1.session)

/-- Embeds np.eye(4): the 4x4 identity array. -/
def npEye4 : Fin 4 → Fin 4 → ℚ := fun i j => if i = j then 1 else 0

/-- Embeds the slice assignment m[:3, :3] = r on a 4x4 array: rows 0-2 and
columns 0-2 receive the 3x3 block r, all other entries are kept. -/
def npSetUpperLeft3x3 (m : Fin 4 → Fin 4 → ℚ) (r : Fin 3 → Fin 3 → ℚ) :
    Fin 4 → Fin 4 → ℚ := fun i j =>
  if hi : i.val < 3 then
    if hj : j.val < 3 then r ⟨i.val, hi⟩ ⟨j.val, hj⟩ else m i j
  else m i j

/-- Embeds the slice assignment m[:, 0:3] = p on a 4x4 array where p is a
3-vector: numpy broadcasts p across all four rows, so every row receives
(p.x, p.y, p.z) in columns 0-2 while column 3 is kept. -/
def npSetCols012Broadcast (m : Fin 4 → Fin 4 → ℚ) (p : Vector3f) :
    Fin 4 → Fin 4 → ℚ := fun i j =>
  if j.val = 0 then p.x
  else if j.val = 1 then p.y
  else if j.val = 2 then p.z
  else m i j

/-- Embeds ndarray.tolist() for a 4x4 array: the row-major nested list. -/
def npToLists (m : Fin 4 → Fin 4 → ℚ) : List (List ℚ) :=
  (List.finRange 4).map fun i => (List.finRange 4).map fun j => m i j

/-- Embeds scipy.spatial.transform.Rotation.from_quat followed by
as_matrix(), for a nonzero input array read in the scalar-LAST order scipy
uses: argument order (x, y, z, w). scipy normalizes the quaternion and
converts; expressing the result over the raw components divides each term
by the squared norm n, which is exact over the rationals. -/
def scipyFromQuatAsMatrix (x y z w : ℚ) : Fin 3 → Fin 3 → ℚ :=
  let n := x * x + y * y + z * z + w * w
  fun i j =>
    match i, j with
    | 0, 0 => 1 - 2 * (y * y + z * z) / n
    | 0, 1 => 2 * (x * y - z * w) / n
    | 0, 2 => 2 * (x * z + y * w) / n
    | 1, 0 => 2 * (x * y + z * w) / n
    | 1, 1 => 1 - 2 * (x * x + z * z) / n
    | 1, 2 => 2 * (y * z - x * w) / n
    | 2, 0 => 2 * (x * z - y * w) / n
    | 2, 1 => 2 * (y * z + x * w) / n
    | 2, 2 => 1 - 2 * (x * x + y * y) / n

/-- Embeds the per-controller matrix construction in the run_vr_bridge.py
main loop, exactly as written there:

  rot_matrix = np.eye(4)
  rot_matrix[:3, :3] = Rotation.from_quat(np.array([
      controller.orientation.w, controller.orientation.x,
      controller.orientation.y, controller.orientation.z])).as_matrix()
  rot_matrix[:, 0:3] = controller.position.as_numpy()
  ... rot_matrix.tolist()

Note the source passes the components in (w, x, y, z) order to from_quat,
which reads them in scalar-last order, and that the final slice assignment
targets columns 0-2 of every row rather than the translation column. -/
def controllerPoseMatrix (st : ViveControllerState) : List (List ℚ) :=
  let q := ViveController.orientation st
  npToLists
    (npSetCols012Broadcast
      (npSetUpperLeft3x3 npEye4 (scipyFromQuatAsMatrix q.w q.x q.y q.z))
      (ViveController.position st))

/-- A value stored in the controller_states nested dict: a nested list
(matrix), a bool or a number. -/
inductive PayloadVal where
  | mat (m : List (List ℚ))
  | boolVal (b : Bool)
  | numVal (q : ℚ)
deriving DecidableEq, Repr

/-- An inner dict of the payload (the per-controller entry). -/
abbrev PayloadEntry := List (String × PayloadVal)

/-- The controller_states dict: logical name to per-controller entry. -/
abbrev Payload := List (String × PayloadEntry)

/-- Embeds Python dict assignment d[k] = v: replace the value of an
existing key in place, or append a new key at the end (insertion order). -/
def pyDictSet {α : Type} : List (String × α) → String → α → List (String × α)
  | [], k, v => [(k, v)]
  | (k0, v0) :: rest, k, v =>
    if k0 = k then (k0, v) :: rest else (k0, v0) :: pyDictSet rest k v

/-- Embeds Python dict lookup d[k] as an Option (None models KeyError). -/
def pyDictGet {α : Type} : List (String × α) → String → Option α
  | [], _ => none
  | (k0, v0) :: rest, k => if k0 = k then some v0 else pyDictGet rest k

/-- The controller_states dict as initialized before the main loop of
run_vr_bridge.py: both controller names present, pose an empty list,
button_pressed False and trigger 0. -/
def initControllerStates : Payload :=
  [ ("left", [("pose", .mat []), ("button_pressed", .boolVal false), ("trigger", .numVal 0)]),
    ("right", [("pose", .mat []), ("button_pressed", .boolVal false), ("trigger", .numVal 0)]) ]

/-- Embeds the statement d[outer][inner] = v: looking up the outer key
raises KeyError when absent, then the inner dict assignment
inserts-or-replaces. -/
def setInner (p : Payload) (outer inner : String) (v : PayloadVal) :
    Except PyErr Payload :=
  match pyDictGet p outer with
  | none => .error .keyError
  | some entry => .ok (pyDictSet p outer (pyDictSet entry inner v))

/-- Embeds one iteration of the while-True main loop of run_vr_bridge.py:
bridge.update(); build the two pose matrices; write pose, button_pressed
(the grip_button accessor) and trigger (the trigger accessor) for both
names into controller_states; then udp.send_dict(controller_states). The
oracle flag sendRaises tells whether the transport raises on this send;
the loop body contains no exception handling, so any exception propagates
out of the iteration (modelled as an Except error). -/
def mainLoopTick (bst : BridgeState) (p : Payload) (ins : SteamVrBridge.Inputs)
    (sendRaises : Bool) : Except PyErr (BridgeState × Payload) := do
  let bst1 := (ScriptBridge.update bst ins).1
  let leftMat := controllerPoseMatrix bst1.left
  let rightMat := controllerPoseMatrix bst1.right
  let p1 ← setInner p "left" "pose" (.mat leftMat)
  let p2 ← setInner p1 "right" "pose" (.mat rightMat)
  let gl ← ViveController.grip_button bst1.left
  let p3 ← setInner p2 "left" "button_pressed" (.boolVal gl)
  let gr ← ViveController.grip_button bst1.right
  let p4 ← setInner p3 "right" "button_pressed" (.boolVal gr)
  let tl ← ViveController.trigger bst1.left
  let p5 ← setInner p4 "left" "trigger" (.numVal tl)
  let tr ← ViveController.trigger bst1.right
  let p6 ← setInner p5 "right" "trigger" (.numVal tr)
  if sendRaises then .error .osError else .ok (bst1, p6)

/-- The top-level key list of a payload dict. -/
def payloadKeys (p : Payload) : List String := p.map Prod.fst

/-- A Python value passed as a positional argument inside
windows_performance_counter.py: the xr.Instance stored on self, or the
LARGE_INTEGER performance counter value. -/
inductive WpcArg where
  | instanceArg
  | largeIntArg (n : Int)
deriving DecidableEq, Repr

/-- Embeds calling a bound Python method whose signature declares exactly
one parameter besides self: Python binds positionally and raises TypeError
at call time when the argument count differs, before the body runs. -/
def callBoundMethod1 {β : Type} (body : WpcArg → Except PyErr β)
    (args : List WpcArg) : Except PyErr β :=
  match args with
  | [a] => body a
  | _ => .error .typeError

namespace WindowsPerformanceCounter

/-- Embeds WindowsPerformanceCounter.time_from_perf_counter (signature:
self, performance_counter). Its body invokes the
xrConvertWin32PerformanceCounterToTimeKHR function pointer and either
raises the checked error result or returns the converted xr.Time; the
converter is an oracle. A non-LARGE_INTEGER argument would fail inside
ctypes.pointer, also an error. -/
def time_from_perf_counter (conv : Int → Except PyErr Int)
    (performance_counter : WpcArg) : Except PyErr Int :=
  match performance_counter with
  | .largeIntArg n => conv n
  | .instanceArg => .error .typeError

/-- Embeds WindowsPerformanceCounter.get: after
kernel32.QueryPerformanceCounter fills self.pc_time (oracle value pc), the
source evaluates self.time_from_perf_counter(self.instance, self.pc_time),
passing TWO positional arguments to the one-parameter bound method. -/
def get (conv : Int → Except PyErr Int) (pc : Int) : Except PyErr Int :=
  callBoundMethod1 (time_from_perf_counter conv) [.instanceArg, .largeIntArg pc]

end WindowsPerformanceCounter

/-- Recognizes the xr.begin_session call in a trace. -/
def isBeginSession : XrCall → Bool
  | .beginSession _ => true
  | _ => false

/-- Recognizes the xr.destroy_session call in a trace. -/
def isDestroySession : XrCall → Bool
  | .destroySession _ => true
  | _ => false

/-- Recognizes an xr.locate_space call in a trace. -/
def isLocateSpace : XrCall → Bool
  | .locateSpace _ => true
  | _ => false

/-- Recognizes an xr.poll_event call in a trace. -/
def isPollEvent : XrCall → Bool
  | .pollEvent => true
  | _ => false

/-- Recognizes the calls the event drain loop itself can issue. -/
def isDrainCall : XrCall → Bool
  | .pollEvent => true
  | .beginSession _ => true
  | .destroySession _ => true
  | _ => false

/-- Claim C1 concrete input: a locate answer carrying the position-valid
bit together with arbitrary concrete action states. -/
def c1In : ViveController.Inputs where
  locate := { location_flags := 2,
              pose := { position := ⟨4, 5, 6⟩, orientation := ⟨0, 0, 0, 1⟩ } }
  menu_button := ⟨true⟩
  trackpad_x := ⟨7⟩
  trackpad_y := ⟨8⟩
  trackpad_button := ⟨true⟩
  trigger := ⟨1/2⟩
  grip_button := ⟨false⟩

/-- Claim C1: for every ViveController state and every update call, if the
space location returned by the collaborator lacks the position-valid flag
the position and orientation are unchanged from their pre-call values, and
if the flag is set they are overwritten exactly with the returned sample. -/
theorem claim_c1_refresh_staleness (st : ViveControllerState)
    (ins : ViveController.Inputs) :
    (ins.locate.location_flags &&& SPACE_LOCATION_POSITION_VALID_BIT = 0 →
      ViveController.position (ViveController.update st ins) =
        ViveController.position st ∧
      ViveController.orientation (ViveController.update st ins) =
        ViveController.orientation st) ∧
    (ins.locate.location_flags &&& SPACE_LOCATION_POSITION_VALID_BIT ≠ 0 →
      ViveController.position (ViveController.update st ins) =
        ins.locate.pose.position ∧
      ViveController.orientation (ViveController.update st ins) =
        ins.locate.pose.orientation) := by
  unfold ViveController.update ViveController.position ViveController.orientation
  constructor
  · intro h
    simp [h]
  · intro h
    simp [h]

/-- Claim C1 witness: the theorem applied at a concrete state and a locate
answer whose flags carry the position-valid bit. -/
theorem claim_c1_refresh_staleness_witness :
    ViveController.position (ViveController.update ViveController.init c1In) =
      ⟨4, 5, 6⟩ ∧
    ViveController.orientation (ViveController.update ViveController.init c1In) =
      ⟨0, 0, 0, 1⟩ :=
  (claim_c1_refresh_staleness ViveController.init c1In).2 (by decide)

/-- Claim C2: refuted on the code. The slice assignment in the
run_vr_bridge.py main loop writes the position into columns 0-2 of every
row (broadcast), erasing the rotation block it just stored, and leaves the
translation column at the np.eye(4) values. The first conjunct computes
the matrix the code builds for every controller state: every row holds the
position and the translation column is (0, 0, 0, 1), independent of the
orientation. The second conjunct evaluates the specified scenario,
position (1,2,3) with the identity quaternion, and shows the result is not
the homogeneous pose matrix the claim requires. -/
theorem claim_c2_pose_matrix_bug :
    (∀ st : ViveControllerState,
      controllerPoseMatrix st =
        [[st.pos_.x, st.pos_.y, st.pos_.z, 0],
         [st.pos_.x, st.pos_.y, st.pos_.z, 0],
         [st.pos_.x, st.pos_.y, st.pos_.z, 0],
         [st.pos_.x, st.pos_.y, st.pos_.z, 1]]) ∧
    controllerPoseMatrix
        { ViveController.init with pos_ := ⟨1, 2, 3⟩, orient_ := ⟨0, 0, 0, 1⟩ } =
      [[1, 2, 3, 0], [1, 2, 3, 0], [1, 2, 3, 0], [1, 2, 3, 1]] := by
  refine ⟨fun st => rfl, by decide⟩

/-- Claim C7: refuted on the code. On a freshly constructed ViveController
every input accessor dereferences .current_state on the plain bool or
float stored by ViveController.__init__ and raises AttributeError instead
of returning the default value. -/
theorem claim_c7_fresh_accessors_raise :
    ViveController.menu_button ViveController.init = .error .attributeError ∧
    ViveController.trackpad_button ViveController.init = .error .attributeError ∧
    ViveController.grip_button ViveController.init = .error .attributeError ∧
    ViveController.trackpad_x ViveController.init = .error .attributeError ∧
    ViveController.trackpad_y ViveController.init = .error .attributeError ∧
    ViveController.trigger ViveController.init = .error .attributeError :=
  ⟨rfl, rfl, rfl, rfl, rfl, rfl⟩

/-- Claim C10: WindowsPerformanceCounter.get passes two positional
arguments (self.instance and self.pc_time) to time_from_perf_counter,
which accepts a single argument besides self, so every call raises
TypeError at the call site and never returns a time token, for every
converter behavior and every performance counter reading. -/
theorem claim_c10_wpc_get_raises_type_error
    (conv : Int → Except PyErr Int) (pc : Int) :
    WindowsPerformanceCounter.get conv pc = .error .typeError := rfl

/-- Claim C5 controller input: an always-valid locate answer, so locate
queries keep being answered after the session is destroyed. -/
def c5CtrlIn : ViveController.Inputs where
  locate := { location_flags := 2,
              pose := { position := ⟨4, 5, 6⟩, orientation := ⟨0, 0, 0, 1⟩ } }
  menu_button := ⟨false⟩
  trackpad_x := ⟨0⟩
  trackpad_y := ⟨0⟩
  trackpad_button := ⟨false⟩
  trigger := ⟨0⟩
  grip_button := ⟨false⟩

/-- Claim C5 tick inputs: the event queue holds READY then STOPPING. -/
def c5In : SteamVrBridge.Inputs where
  events := [.sessionStateChanged .READY, .sessionStateChanged .STOPPING]
  hmd_locate := { location_flags := 0,
                  pose := { position := ⟨0, 0, 0⟩, orientation := ⟨0, 0, 0, 1⟩ } }
  left_inputs := c5CtrlIn
  right_inputs := c5CtrlIn

/-- Claim C5 tick inputs for the following tick: empty event queue. -/
def c5In2 : SteamVrBridge.Inputs where
  events := []
  hmd_locate := { location_flags := 0,
                  pose := { position := ⟨0, 0, 0⟩, orientation := ⟨0, 0, 0, 1⟩ } }
  left_inputs := c5CtrlIn
  right_inputs := c5CtrlIn

/-- Claim C5: the part of the claim about begin/destroy ordering holds --
draining [READY, STOPPING] in one tick issues xr.begin_session once and
xr.destroy_session once, in that order, and nulls the session handle --
but the no-further-locate part fails: the same tick goes on to issue three
xr.locate_space queries after the destroy, and the next tick issues three
more, because SteamVrBridge.update proceeds unconditionally after the
drain with the now-None session handle. -/
theorem claim_c5_stopping_keeps_locating :
    (((SteamVrBridge.update SteamVrBridge.init c5In).2.countP
        (fun c => isBeginSession c)) = 1) ∧
    (((SteamVrBridge.update SteamVrBridge.init c5In).2.countP
        (fun c => isDestroySession c)) = 1) ∧
    ((((SteamVrBridge.update SteamVrBridge.init c5In).2.takeWhile
        (fun c => !(isDestroySession c))).countP (fun c => isBeginSession c)) = 1) ∧
    ((SteamVrBridge.update SteamVrBridge.init c5In).1.session = none) ∧
    ((((SteamVrBridge.update SteamVrBridge.init c5In).2.dropWhile
        (fun c => !(isDestroySession c))).countP (fun c => isLocateSpace c)) = 3) ∧
    (((SteamVrBridge.update (SteamVrBridge.update SteamVrBridge.init c5In).1
        c5In2).2.countP (fun c => isLocateSpace c)) = 3) := by
  decide

/-- Claim C8 witness tick inputs: an empty event queue. -/
def c8In : SteamVrBridge.Inputs where
  events := []
  hmd_locate := { location_flags := 0,
                  pose := { position := ⟨0, 0, 0⟩, orientation := ⟨0, 0, 0, 1⟩ } }
  left_inputs := { locate := { location_flags := 0,
                               pose := { position := ⟨0, 0, 0⟩,
                                         orientation := ⟨0, 0, 0, 1⟩ } },
                   menu_button := ⟨false⟩, trackpad_x := ⟨0⟩, trackpad_y := ⟨0⟩,
                   trackpad_button := ⟨false⟩, trigger := ⟨0⟩,
                   grip_button := ⟨false⟩ }
  right_inputs := { locate := { location_flags := 0,
                                pose := { position := ⟨0, 0, 0⟩,
                                          orientation := ⟨0, 0, 0, 1⟩ } },
                    menu_button := ⟨false⟩, trackpad_x := ⟨0⟩, trackpad_y := ⟨0⟩,
                    trackpad_button := ⟨false⟩, trigger := ⟨0⟩,
                    grip_button := ⟨false⟩ }

/-- Every call the event drain loop emits is a poll, a begin-session or a
destroy-session call. -/
theorem drain_trace_calls (evs : List XrEvent) :
    ∀ st : BridgeState, ∀ c ∈ (SteamVrBridge.drainEvents st evs).2,
      isDrainCall c = true := by
  induction evs with
  | nil =>
    intro st c hc
    simp [SteamVrBridge.drainEvents] at hc
    subst hc
    rfl
  | cons e rest ih =>
    intro st c hc
    simp [SteamVrBridge.drainEvents] at hc
    rcases hc with h | h | h
    · subst h; rfl
    · cases e with
      | otherEvent => simp [SteamVrBridge.handleEvent] at h
      | sessionStateChanged s =>
        by_cases h1 : s = SessionState.READY
        · simp [SteamVrBridge.handleEvent, h1] at h
          subst h; rfl
        · by_cases h2 : s = SessionState.STOPPING
          · simp [SteamVrBridge.handleEvent, h1, h2] at h
            subst h; rfl
          · simp [SteamVrBridge.handleEvent, h1, h2] at h
    · exact ih _ c h

/-- Claim C8: every tick of SteamVrBridge.update runs its steps in the
fixed order: the event drain first (whose trace consists solely of poll,
begin-session and destroy-session calls), then xr.wait_frame, then the
performance counter read, then xr.sync_actions, then the headset
xr.locate_space, then the two controller refreshes, left before right. -/
theorem claim_c8_tick_step_order (st : BridgeState) (ins : SteamVrBridge.Inputs) :
    ((SteamVrBridge.update st ins).2 =
      (SteamVrBridge.drainEvents st ins.events).2
        ++ [.waitFrame (SteamVrBridge.drainEvents st ins.events).1.session,
            .perfCounterGet,
            .syncActions (SteamVrBridge.drainEvents st ins.events).1.session,
            .locateSpace "view_reference_space"]
        ++ ViveController.updateCalls "left"
            (SteamVrBridge.drainEvents st ins.events).1.session
        ++ ViveController.updateCalls "right"
            (SteamVrBridge.drainEvents st ins.events).1.session) ∧
    ∀ c ∈ (SteamVrBridge.drainEvents st ins.events).2, isDrainCall c = true :=
  ⟨rfl, drain_trace_calls ins.events st⟩

/-- Claim C8 witness: the theorem applied at the initial bridge state with
an empty event queue; the drain trace is the single final poll call. -/
theorem claim_c8_tick_step_order_witness :
    isDrainCall XrCall.pollEvent = true :=
  (claim_c8_tick_step_order SteamVrBridge.init c8In).2 XrCall.pollEvent
    (by simp [SteamVrBridge.drainEvents, c8In])

/-- The drain loop performs one poll per pending event plus the final poll
that receives the empty-queue signal. -/
theorem drain_poll_count (evs : List XrEvent) :
    ∀ st : BridgeState,
      ((SteamVrBridge.drainEvents st evs).2.countP (fun c => isPollEvent c)) =
        evs.length + 1 := by
  induction evs with
  | nil => intro st; rfl
  | cons e rest ih =>
    intro st
    have hz : ((SteamVrBridge.handleEvent st e).2.countP (fun c => isPollEvent c)) = 0 := by
      cases e with
      | otherEvent => rfl
      | sessionStateChanged s =>
        by_cases h1 : s = SessionState.READY
        · simp [SteamVrBridge.handleEvent, h1, isPollEvent]
        · by_cases h2 : s = SessionState.STOPPING
          · simp [SteamVrBridge.handleEvent, h1, h2, isPollEvent]
          · simp [SteamVrBridge.handleEvent, h1, h2]
    simp [SteamVrBridge.drainEvents, List.countP_cons, List.countP_append, hz,
      ih, show isPollEvent XrCall.pollEvent = true from rfl]

/-- Claim C9: the empty-queue signal is the xr.EventUnavailable exception
(first conjunct), a pending event is returned and consumed (second), the
drain loop exits normally on the signal without touching the state and
records the final poll (third), performs exactly one poll per pending
event plus that final poll (fourth), and the tick then continues with the
remaining steps, the next being xr.wait_frame (fifth). -/
theorem claim_c9_event_unavailable_normal_exit :
    (SteamVrBridge.pollEvent [] = .error .eventUnavailable) ∧
    (∀ e rest, SteamVrBridge.pollEvent (e :: rest) = .ok (e, rest)) ∧
    (∀ st : BridgeState, SteamVrBridge.drainEvents st [] = (st, [.pollEvent])) ∧
    (∀ (st : BridgeState) (evs : List XrEvent),
      ((SteamVrBridge.drainEvents st evs).2.countP (fun c => isPollEvent c)) =
        evs.length + 1) ∧
    (∀ (st : BridgeState) (ins : SteamVrBridge.Inputs), ∃ tl,
      (SteamVrBridge.update st ins).2 =
        (SteamVrBridge.drainEvents st ins.events).2
          ++ XrCall.waitFrame (SteamVrBridge.drainEvents st ins.events).1.session
          :: tl) := by
  refine ⟨rfl, fun e rest => rfl, fun st => rfl,
    fun st evs => drain_poll_count evs st, fun st ins => ⟨?_, ?_⟩⟩
  · exact [.perfCounterGet,
      .syncActions (SteamVrBridge.drainEvents st ins.events).1.session,
      .locateSpace "view_reference_space"]
      ++ ViveController.updateCalls "left"
          (SteamVrBridge.drainEvents st ins.events).1.session
      ++ ViveController.updateCalls "right"
          (SteamVrBridge.drainEvents st ins.events).1.session
  · simp [SteamVrBridge.update, List.append_assoc]

/-- Claim C3 controller input: distinctive readings so the absent fields
are visible -- menu True, trackpad (7, 8), trackpad button True, trigger
1/2, grip False. -/
def c3CtrlIn : ViveController.Inputs where
  locate := { location_flags := 2,
              pose := { position := ⟨4, 5, 6⟩, orientation := ⟨0, 0, 0, 1⟩ } }
  menu_button := ⟨true⟩
  trackpad_x := ⟨7⟩
  trackpad_y := ⟨8⟩
  trackpad_button := ⟨true⟩
  trigger := ⟨1/2⟩
  grip_button := ⟨false⟩

/-- Claim C3 tick inputs. -/
def c3In : SteamVrBridge.Inputs where
  events := []
  hmd_locate := { location_flags := 0,
                  pose := { position := ⟨0, 0, 0⟩, orientation := ⟨0, 0, 0, 1⟩ } }
  left_inputs := c3CtrlIn
  right_inputs := c3CtrlIn

/-- The per-controller payload entry the claim C3 tick produces. -/
def c3Entry : PayloadEntry :=
  [("pose", .mat [[4, 5, 6, 0], [4, 5, 6, 0], [4, 5, 6, 0], [4, 5, 6, 1]]),
   ("button_pressed", .boolVal false),
   ("trigger", .numVal (1/2))]

/-- Claim C3 counterexample: after a concrete tick the left entry of the
payload holds exactly the three fields pose, button_pressed and trigger;
the menu-button reading (True), the trackpad-x reading (7) and the
trackpad-y reading (8) polled on that same tick appear nowhere in the
entry, so the payload does not contain all six input readings. -/
theorem claim_c3_payload_counterexample :
    ((mainLoopTick SteamVrBridge.init initControllerStates c3In false).map
      (fun r => pyDictGet r.2 "left")) = .ok (some c3Entry) ∧
    c3Entry.map Prod.fst = ["pose", "button_pressed", "trigger"] ∧
    PayloadVal.boolVal true ∉ c3Entry.map Prod.snd ∧
    PayloadVal.numVal 7 ∉ c3Entry.map Prod.snd ∧
    PayloadVal.numVal 8 ∉ c3Entry.map Prod.snd :=
  ⟨rfl, rfl, by simp [c3Entry], by simp [c3Entry]; norm_num, by simp [c3Entry]; norm_num⟩

/-- Claim C3 amended: for every tick run on a payload with the shape the
main loop maintains, the payload handed to the transport contains, for
each of the two controller names, exactly three fields: the 4x4 matrix
under pose, the grip-button boolean under button_pressed and the trigger
reading under trigger. -/
theorem claim_c3_amended_payload_fields (bst : BridgeState)
    (ins : SteamVrBridge.Inputs) (a b c a2 b2 c2 : PayloadVal) :
    mainLoopTick bst
      [("left", [("pose", a), ("button_pressed", b), ("trigger", c)]),
       ("right", [("pose", a2), ("button_pressed", b2), ("trigger", c2)])]
      ins false =
    .ok ((ScriptBridge.update bst ins).1,
      [("left",
        [("pose", .mat (controllerPoseMatrix (ScriptBridge.update bst ins).1.left)),
         ("button_pressed", .boolVal ins.left_inputs.grip_button.current_state),
         ("trigger", .numVal ins.left_inputs.trigger.current_state)]),
       ("right",
        [("pose", .mat (controllerPoseMatrix (ScriptBridge.update bst ins).1.right)),
         ("button_pressed", .boolVal ins.right_inputs.grip_button.current_state),
         ("trigger", .numVal ins.right_inputs.trigger.current_state)])]) := rfl

/-- Claim C4 controller input. -/
def c4CtrlIn : ViveController.Inputs where
  locate := { location_flags := 2,
              pose := { position := ⟨4, 5, 6⟩, orientation := ⟨0, 0, 0, 1⟩ } }
  menu_button := ⟨false⟩
  trackpad_x := ⟨0⟩
  trackpad_y := ⟨0⟩
  trackpad_button := ⟨false⟩
  trigger := ⟨0⟩
  grip_button := ⟨false⟩

/-- Claim C4 tick inputs. -/
def c4In : SteamVrBridge.Inputs where
  events := []
  hmd_locate := { location_flags := 0,
                  pose := { position := ⟨0, 0, 0⟩, orientation := ⟨0, 0, 0, 1⟩ } }
  left_inputs := c4CtrlIn
  right_inputs := c4CtrlIn

/-- Claim C4 counterexample: with the transport raising on send, the tick
evaluates to the propagated transport error rather than completing -- the
loop body has no exception handling, so the exception escapes past the
publisher. -/
theorem claim_c4_send_failure_escapes :
    mainLoopTick SteamVrBridge.init initControllerStates c4In true =
      .error .osError := rfl

/-- Claim C4 amended: whenever the transport raises on the per-tick send,
the exception propagates uncaught out of the loop body for every bridge
state, payload of the maintained shape and tick input: send failure is
fatal to the loop, not non-fatal. -/
theorem claim_c4_amended_send_failure_fatal (bst : BridgeState)
    (ins : SteamVrBridge.Inputs) (a b c a2 b2 c2 : PayloadVal) :
    mainLoopTick bst
      [("left", [("pose", a), ("button_pressed", b), ("trigger", c)]),
       ("right", [("pose", a2), ("button_pressed", b2), ("trigger", c2)])]
      ins true = .error .osError := rfl

/-- Writing to a key that is already present leaves the key list of a dict
unchanged. -/
theorem pyDictSet_keys_of_get {α : Type} (p : List (String × α)) (k : String)
    (v e : α) (h : pyDictGet p k = some e) :
    (pyDictSet p k v).map Prod.fst = p.map Prod.fst := by
  induction p with
  | nil => simp [pyDictGet] at h
  | cons kv rest ih =>
    by_cases hk : kv.1 = k
    · simp [pyDictSet, hk]
    · simp [pyDictGet, hk] at h
      simp [pyDictSet, hk, ih h]

/-- A successful nested dict write preserves the top-level key list. -/
theorem setInner_keys (p p1 : Payload) (o i : String) (v : PayloadVal)
    (h : setInner p o i v = .ok p1) : payloadKeys p1 = payloadKeys p := by
  unfold setInner at h
  cases hg : pyDictGet p o with
  | none => rw [hg] at h; exact absurd h (by simp)
  | some entry =>
    rw [hg] at h
    have hp : p1 = pyDictSet p o (pyDictSet entry i v) := by
      cases h; rfl
    rw [hp]
    exact pyDictSet_keys_of_get p o _ entry hg

/-- A successful Except bind factors through a successful first stage. -/
theorem except_bind_ok {α β : Type} {x : Except PyErr α} {f : α → Except PyErr β}
    {b : β} (h : x >>= f = .ok b) : ∃ a, x = .ok a ∧ f a = .ok b := by
  cases x with
  | error e => exact absurd h (by simp [Bind.bind, Except.bind])
  | ok a => exact ⟨a, rfl, by simpa [Bind.bind, Except.bind] using h⟩

/-- Claim C6: the controller_states dict starts with exactly the two keys
left and right, and every successfully completed tick of the main loop
preserves exactly these two top-level keys, whatever the bridge state,
tick inputs and transport behavior. -/
theorem claim_c6_payload_two_keys :
    payloadKeys initControllerStates = ["left", "right"] ∧
    ∀ (bst : BridgeState) (p : Payload) (ins : SteamVrBridge.Inputs)
      (sr : Bool) (bst1 : BridgeState) (p1 : Payload),
      payloadKeys p = ["left", "right"] →
      mainLoopTick bst p ins sr = .ok (bst1, p1) →
      payloadKeys p1 = ["left", "right"] := by
  refine ⟨rfl, ?_⟩
  intro bst p ins sr bst1 p1 hk h
  unfold mainLoopTick at h
  obtain ⟨pa, h1, h⟩ := except_bind_ok h
  obtain ⟨pb, h2, h⟩ := except_bind_ok h
  obtain ⟨gl, h3, h⟩ := except_bind_ok h
  obtain ⟨pc, h4, h⟩ := except_bind_ok h
  obtain ⟨gr, h5, h⟩ := except_bind_ok h
  obtain ⟨pd, h6, h⟩ := except_bind_ok h
  obtain ⟨tl2, h7, h⟩ := except_bind_ok h
  obtain ⟨pe, h8, h⟩ := except_bind_ok h
  obtain ⟨tr2, h9, h⟩ := except_bind_ok h
  obtain ⟨pf, h10, h⟩ := except_bind_ok h
  cases sr with
  | true => exact absurd h (by simp)
  | false =>
    have hp : p1 = pf := by cases h; rfl
    rw [hp]
    rw [setInner_keys pe pf _ _ _ h10, setInner_keys pd pe _ _ _ h8,
      setInner_keys pc pd _ _ _ h6, setInner_keys pb pc _ _ _ h4,
      setInner_keys pa pb _ _ _ h2, setInner_keys p pa _ _ _ h1]
    exact hk

/-- Claim C6 controller input for the witness tick. -/
def c6CtrlIn : ViveController.Inputs where
  locate := { location_flags := 2,
              pose := { position := ⟨4, 5, 6⟩, orientation := ⟨0, 0, 0, 1⟩ } }
  menu_button := ⟨false⟩
  trackpad_x := ⟨0⟩
  trackpad_y := ⟨0⟩
  trackpad_button := ⟨false⟩
  trigger := ⟨3/4⟩
  grip_button := ⟨true⟩

/-- Claim C6 tick inputs for the witness tick. -/
def c6In : SteamVrBridge.Inputs where
  events := []
  hmd_locate := { location_flags := 0,
                  pose := { position := ⟨0, 0, 0⟩, orientation := ⟨0, 0, 0, 1⟩ } }
  left_inputs := c6CtrlIn
  right_inputs := c6CtrlIn

/-- The payload built by the claim C6 witness tick. -/
def c6Payload : Payload :=
  [("left",
    [("pose", .mat [[4, 5, 6, 0], [4, 5, 6, 0], [4, 5, 6, 0], [4, 5, 6, 1]]),
     ("button_pressed", .boolVal true),
     ("trigger", .numVal (3/4))]),
   ("right",
    [("pose", .mat [[4, 5, 6, 0], [4, 5, 6, 0], [4, 5, 6, 0], [4, 5, 6, 1]]),
     ("button_pressed", .boolVal true),
     ("trigger", .numVal (3/4))])]

/-- Claim C6 witness: the theorem applied to a concrete tick run from the
initial payload. -/
theorem claim_c6_payload_two_keys_witness :
    payloadKeys c6Payload = ["left", "right"] :=
  claim_c6_payload_two_keys.2 SteamVrBridge.init initControllerStates c6In false
    (ScriptBridge.update SteamVrBridge.init c6In).1 c6Payload rfl rfl
